import Mathlib

/-!
# Verification of the chat-only relay server

Shallow embedding of the connection registry, message router and presence
broadcaster of the `chat-only` repository.  The repository contains several
variants of the same server; each namespace below embeds the variant named in
its header comment:

* `P3`  — `src/unnamed/part_003` (friendship-checked `handlePrivateMessage`,
  error events, `message_sent` ack);
* `P1`  — `src/unnamed/part_001` (set-based socket registry with
  `notifyFriendsOffline` on last close);
* `CSReg` — the in-memory registry of `src/chat-server.js`
  (`onlineUsers` / `userSockets`, lines 155-200, and the delivery step of
  `handlePrivateMessage`, lines 259-270);
* `CS`  — the message dispatcher and handlers of `src/chat-server.js`;
* `ConnectFlow` — the connect-time snapshot/notification path
  (`sendOnlineFriendsList` of `src/unnamed/part_002` combined with
  `sendPendingNotifications` of `src/chat-server.js`, following the connect
  lifecycle of the specification).

Maps (`Map` in JS) are embedded as association lists with unique keys;
`Map.set`/`Map.delete` become `setA`/`delA`.  Sends are pairs of a target
(user id, or raw connection handle where the distinction matters) and an
outbound event.  Database tables are lists of rows kept in insertion order
(`created_at` ascending), so `ORDER BY created_at DESC` is `List.reverse`.
-/

namespace ChatOnly

/-- A row of the `friends` table: `{user_id, friend_id, status}`. -/
structure FriendRow where
  userId : Nat
  friendId : Nat
  fstatus : String
deriving DecidableEq

/-- A row of the `chat_messages` table. -/
structure Msg where
  id : Nat
  senderId : Nat
  receiverId : Nat
  body : String
  isRead : Bool
  createdAt : Nat
deriving DecidableEq

/-- A row of the `chat_notifications` table. -/
structure Notif where
  id : Nat
  userId : Nat
  kind : String
  fromUserId : Nat
  body : Option String
  isRead : Bool
  createdAt : Nat
deriving DecidableEq

/-- An outbound JSON event.  Each construction site in the source includes a
subset of these fields; fields absent from the JS object literal are `none`.
The nested `user: {id, username}` object of the `connected` ack is flattened
into `user_id` / `username`. -/
structure Event where
  type : String
  timestamp : Option Nat := none
  message : Option String := none
  from_user_id : Option Nat := none
  from_username : Option String := none
  to_user_id : Option Nat := none
  message_id : Option Nat := none
  created_at : Option Nat := none
  user_id : Option Nat := none
  username : Option String := none
  is_typing : Option Bool := none
  read_by : Option Nat := none
  ans_status : Option String := none
  request_id : Option Nat := none
  notification_id : Option Nat := none
  friend_id : Option Nat := none
  friend_username : Option String := none
  connection_type : Option String := none
deriving DecidableEq

/-- A send: target (user id or connection handle) paired with the event. -/
abbrev Send := Nat × Event

/-- `areFriends` of part_003 (and part_002's `getFriendIds` condition): true
iff some row links the two users in either direction with status accepted. -/
def areFriends (rows : List FriendRow) (a b : Nat) : Bool :=
  rows.any (fun r =>
    (((r.userId == a) && (r.friendId == b)) ||
     ((r.userId == b) && (r.friendId == a))) && (r.fstatus == "accepted"))

/-- Accepted-friend partner ids of `u` (the symmetric SQL of
`getFriendIds` / `notifyFriendsOffline`): for every accepted row containing
`u`, the other side of the row. -/
def acceptedFriendIds (rows : List FriendRow) (u : Nat) : List Nat :=
  rows.filterMap (fun r =>
    if r.fstatus == "accepted" then
      if r.userId == u then some r.friendId
      else if r.friendId == u then some r.userId
      else none
    else none)

/-! ## Association-list maps (JS `Map`) -/

/-- Remove a key (JS `Map.delete`). -/
def delA {α : Type} (m : List (Nat × α)) (k : Nat) : List (Nat × α) :=
  m.filter (fun p => p.1 != k)

/-- Set a key to a value (JS `Map.set`): the unique binding for `k` is `v`. -/
def setA {α : Type} (m : List (Nat × α)) (k : Nat) (v : α) : List (Nat × α) :=
  (k, v) :: delA m k

/-- JS `Set.add`: append the element unless already present. -/
def addSock (s : List Nat) (c : Nat) : List Nat :=
  if c ∈ s then s else s ++ [c]

/-- Add a key to a key set (the key part of `Map.set`). -/
def insertK (l : List Nat) (u : Nat) : List Nat :=
  if u ∈ l then l else u :: l

/-- Remove a key from a key set (the key part of `Map.delete`). -/
def removeK (l : List Nat) (u : Nat) : List Nat :=
  l.filter (fun x => x != u)

/-- `sendPendingNotifications` of `src/chat-server.js` (lines 439-473) acting
on the `chat_notifications` table: fetch the unread rows of the user, newest
first, `LIMIT 10`; push each fetched row; if anything was fetched, mark every
unread row of the user read (the `UPDATE` has no `LIMIT`).  The table is kept
in insertion order, so newest-first is `reverse`. -/
def sendPendingNotifications (notifs : List Notif) (u : Nat) :
    List Notif × List Send :=
  let unread := notifs.filter (fun n => (n.userId == u) && !n.isRead)
  let fetched := unread.reverse.take 10
  let sends : List Send := fetched.map (fun n =>
    (u, { type := n.kind, notification_id := some n.id,
          from_user_id := some n.fromUserId, message := n.body,
          timestamp := some n.createdAt }))
  let notifs2 :=
    if fetched.isEmpty then notifs
    else notifs.map (fun n =>
      if (n.userId == u) && !n.isRead then { n with isRead := true } else n)
  (notifs2, sends)

end ChatOnly

namespace ChatOnly.P3

/-!
## part_003: the friendship-checked private-message handler

State = the two persisted tables, the static `friends` table, and the keys of
the in-memory `onlineUsers` map (part_003 keys it by user id and each send
site targets `onlineUsers.get(uid).ws`, so sends are user-addressed).
`nextMsgId` / `nextNotifId` model the SERIAL primary keys.
-/

structure St where
  messages : List Msg
  notifications : List Notif
  friends : List FriendRow
  online : List Nat
  nextMsgId : Nat
  nextNotifId : Nat
deriving DecidableEq

/-- `onlineUsers.has(u)`. -/
def isOnline (st : St) (u : Nat) : Bool := st.online.contains u

/-- The error event part_003 sends to a non-friend sender. -/
def nonFriendError (now : Nat) : Event :=
  { type := "error",
    message := some "No puedes enviar mensajes a este usuario porque no son amigos",
    timestamp := some now }

/-- The error event part_003 sends to the sender when persistence fails. -/
def sendError (now : Nat) : Event :=
  { type := "error",
    message := some "Error al enviar el mensaje",
    timestamp := some now }

/-- `handlePrivateMessage` of part_003 (lines 351-434).  `tsArg` is the
optional `timestamp` field of the inbound event, `now` is `Date.now()`, and
`insertOk` records whether the Storage Gateway insert of the message row
succeeds; on failure control jumps to the catch block, which only notifies
the sender. -/
def handlePrivateMessage (st : St) (senderId : Nat) (senderName : String)
    (toUserId : Nat) (body : String) (tsArg : Option Nat) (now : Nat)
    (insertOk : Bool) : St × List Send :=
  if !(areFriends st.friends senderId toUserId) then
    (st, if isOnline st senderId then [(senderId, nonFriendError now)] else [])
  else if !insertOk then
    (st, if isOnline st senderId then [(senderId, sendError now)] else [])
  else
    let messageId := st.nextMsgId
    let newSt : St :=
      { st with
        messages := st.messages ++
          [{ id := messageId, senderId := senderId, receiverId := toUserId,
             body := body, isRead := false, createdAt := now }],
        notifications := st.notifications ++
          [{ id := st.nextNotifId, userId := toUserId, kind := "message",
             fromUserId := senderId, body := some (body.take 100),
             isRead := false, createdAt := now }],
        nextMsgId := st.nextMsgId + 1,
        nextNotifId := st.nextNotifId + 1 }
    let receiverSends : List Send :=
      if isOnline st toUserId then
        [(toUserId,
          { type := "private_message", from_user_id := some senderId,
            from_username := some senderName, to_user_id := some toUserId,
            message := some body, message_id := some messageId,
            timestamp := some (tsArg.getD now), created_at := some now })]
      else []
    let senderSends : List Send :=
      if isOnline st senderId then
        [(senderId,
          { type := "message_sent", message_id := some messageId,
            to_user_id := some toUserId, timestamp := some (tsArg.getD now),
            created_at := some now })]
      else []
    (newSt, receiverSends ++ senderSends)

end ChatOnly.P3

namespace ChatOnly.CSReg

/-!
## chat-server.js: the in-memory connection registry

`onlineUsers : Map userId -> {ws, ...}` (only the `ws` handle matters here)
and `userSockets : Map userId -> Set ws`.  `register` is the connection
handler lines 155-162, `unregister` the close handler lines 186-200,
`sendToUser` the delivery step of `handlePrivateMessage` lines 259-270.
Connection handles are numbers. -/

structure Reg where
  onlineUsers : List (Nat × Nat)
  userSockets : List (Nat × List Nat)
deriving DecidableEq

/-- The socket set of a user (empty when the user has no entry). -/
def socketsOf (r : Reg) (u : Nat) : List Nat :=
  (r.userSockets.lookup u).getD []

/-- Lines 155-162: `onlineUsers.set(userId, {ws,...})`; create the socket set
if absent; `userSockets.get(userId).add(ws)`. -/
def register (r : Reg) (u c : Nat) : Reg :=
  { onlineUsers := setA r.onlineUsers u c,
    userSockets := setA r.userSockets u (addSock (socketsOf r u) c) }

/-- Lines 186-200: remove the socket; when the set empties, drop the user
from both maps. -/
def unregister (r : Reg) (u c : Nat) : Reg :=
  match r.userSockets.lookup u with
  | none => r
  | some socks =>
      let socks2 := socks.filter (fun x => x != c)
      if socks2.isEmpty then
        { onlineUsers := delA r.onlineUsers u,
          userSockets := delA r.userSockets u }
      else
        { r with userSockets := setA r.userSockets u socks2 }

/-- `onlineUsers.has(u)`. -/
def isOnline (r : Reg) (u : Nat) : Bool := (r.onlineUsers.lookup u).isSome

/-- Lines 259-270: if `onlineUsers.has(uid)`, write the event to the single
handle `onlineUsers.get(uid).ws`; no other socket is touched and no
writable-state check is made. -/
def sendToUser (r : Reg) (uid : Nat) (e : Event) : List Send :=
  match r.onlineUsers.lookup uid with
  | some ws => [(ws, e)]
  | none => []

/-- Registry states reachable from the empty registry by the connection and
close handlers. -/
inductive Reach : Reg → Prop
| start : Reach ⟨[], []⟩
| step_register (u c : Nat) {r : Reg} : Reach r → Reach (register r u c)
| step_unregister (u c : Nat) {r : Reg} : Reach r → Reach (unregister r u c)

end ChatOnly.CSReg

namespace ChatOnly.P1

/-!
## part_001: socket sets plus friend-scoped offline broadcast

State: `userSockets` and the key set of `onlineUsers` as in chat-server.js,
plus the `is_online` column of the `users` table (`dbOnline`, written by
`updateUserOnlineStatus`) and the `friends` table.  Sends are addressed by
user id (each send site resolves `onlineUsers.get(id).ws`). -/

structure St where
  userSockets : List (Nat × List Nat)
  onlineK : List Nat
  dbOnline : List Nat
  friends : List FriendRow
deriving DecidableEq

/-- The `friend_offline` event of `notifyFriendsOffline` (lines 344-348). -/
def offlineEv (u now : Nat) : Event :=
  { type := "friend_offline", user_id := some u, timestamp := some now }

/-- The `friend_online` event of `notifyFriendsOnline` (lines 314-319). -/
def onlineEv (u : Nat) (name : String) (now : Nat) : Event :=
  { type := "friend_online", user_id := some u, username := some name,
    timestamp := some now }

/-- `notifyFriendsOffline` (lines 328-355): the SQL selects the accepted
friends of `u` whose `users` row has `is_online = 1`; the JS loop then sends
only to friends present in the `onlineUsers` map. -/
def notifyFriendsOffline (st : St) (u now : Nat) : List Send :=
  ((acceptedFriendIds st.friends u).filter
      (fun f => st.dbOnline.contains f && st.onlineK.contains f)).map
    (fun f => (f, offlineEv u now))

/-- `notifyFriendsOnline` (lines 298-326), same selection. -/
def notifyFriendsOnline (st : St) (u : Nat) (name : String) (now : Nat) :
    List Send :=
  ((acceptedFriendIds st.friends u).filter
      (fun f => st.dbOnline.contains f && st.onlineK.contains f)).map
    (fun f => (f, onlineEv u name now))

/-- Connection handler (lines 45-81): register the socket in both maps, set
`is_online` in the `users` table, send the `connected` ack (no timestamp in
this variant), notify online friends.  The pending-notification delivery of
this variant touches tables not carried in this namespace and marks nothing
read; it is not needed by any claim settled here. -/
def connect (st : St) (u c : Nat) (name : String) (now : Nat) :
    St × List Send :=
  let st2 : St :=
    { st with
      onlineK := insertK st.onlineK u,
      userSockets := setA st.userSockets u (addSock ((st.userSockets.lookup u).getD []) c),
      dbOnline := insertK st.dbOnline u }
  (st2,
    (u, { type := "connected", message := some "Conectado al servidor de chat",
          user_id := some u, username := some name }) ::
      notifyFriendsOnline st2 u name now)

/-- Close handler (lines 92-109): remove the socket; if it was the user's
last one, drop the user from both maps, clear `is_online`, and broadcast
`friend_offline` (both updates are awaited before the broadcast). -/
def disconnect (st : St) (u c : Nat) (now : Nat) : St × List Send :=
  match st.userSockets.lookup u with
  | none => (st, [])
  | some socks =>
      let socks2 := socks.filter (fun x => x != c)
      if socks2.isEmpty then
        let st2 : St :=
          { st with
            userSockets := delA st.userSockets u,
            onlineK := removeK st.onlineK u,
            dbOnline := removeK st.dbOnline u }
        (st2, notifyFriendsOffline st2 u now)
      else
        ({ st with userSockets := setA st.userSockets u socks2 }, [])

/-- States reachable from an empty registry (any initial friends table) by
connects, disconnects, and friend-table mutations (the friend_request /
response handlers only touch the friends table). -/
inductive Reach : St → Prop
| start (friends : List FriendRow) : Reach ⟨[], [], [], friends⟩
| step_connect (u c : Nat) (name : String) (now : Nat) {st : St} :
    Reach st → Reach (connect st u c name now).1
| step_disconnect (u c now : Nat) {st : St} :
    Reach st → Reach (disconnect st u c now).1
| step_friends (F : List FriendRow) {st : St} :
    Reach st → Reach { st with friends := F }

end ChatOnly.P1

namespace ChatOnly.CS

/-!
## chat-server.js: message dispatcher and handlers

State: the two tables plus the key set of `onlineUsers`.  Sends are
user-addressed (every send site resolves `onlineUsers.get(id).ws`). -/

structure St where
  messages : List Msg
  notifications : List Notif
  online : List Nat
  nextMsgId : Nat
  nextNotifId : Nat
deriving DecidableEq

/-- An inbound event.  The dispatcher reads `type`; each handler destructures
the fields it needs. -/
structure InMsg where
  type : String
  to_user_id : Nat := 0
  body : String := ""
  tsArg : Option Nat := none
  is_typing : Bool := false
  message_id : Nat := 0
  from_user_id : Nat := 0
  request_id : Nat := 0
  rstatus : String := ""
  friend_id : Nat := 0
  friend_username : String := ""
deriving DecidableEq

/-- `onlineUsers.has(u)`. -/
def isOnline (st : St) (u : Nat) : Bool := st.online.contains u

/-- `handlePrivateMessage` (lines 240-275): insert the message row and the
notification row, then push to the receiver if online.  No friendship check,
no `message_sent` ack, and errors are only logged in this variant. -/
def handlePrivateMessage (st : St) (senderId : Nat) (senderName : String)
    (m : InMsg) (now : Nat) : St × List Send :=
  let messageId := st.nextMsgId
  let st2 : St :=
    { st with
      messages := st.messages ++
        [{ id := messageId, senderId := senderId, receiverId := m.to_user_id,
           body := m.body, isRead := false, createdAt := now }],
      notifications := st.notifications ++
        [{ id := st.nextNotifId, userId := m.to_user_id, kind := "message",
           fromUserId := senderId, body := some (m.body.take 100),
           isRead := false, createdAt := now }],
      nextMsgId := st.nextMsgId + 1,
      nextNotifId := st.nextNotifId + 1 }
  (st2,
    if isOnline st m.to_user_id then
      [(m.to_user_id,
        { type := "private_message", from_user_id := some senderId,
          from_username := some senderName, to_user_id := some m.to_user_id,
          message := some m.body, message_id := some messageId,
          timestamp := some (m.tsArg.getD now) })]
    else [])

/-- `handleFriendRequest` (lines 277-302). -/
def handleFriendRequest (st : St) (senderId : Nat) (senderName : String)
    (m : InMsg) (now : Nat) : St × List Send :=
  let st2 : St :=
    { st with
      notifications := st.notifications ++
        [{ id := st.nextNotifId, userId := m.to_user_id,
           kind := "friend_request", fromUserId := senderId, body := none,
           isRead := false, createdAt := now }],
      nextNotifId := st.nextNotifId + 1 }
  (st2,
    if isOnline st m.to_user_id then
      [(m.to_user_id,
        { type := "friend_request", from_user_id := some senderId,
          from_username := some senderName, to_user_id := some m.to_user_id,
          timestamp := some now })]
    else [])

/-- `handleFriendRequestResponse` (lines 304-333). -/
def handleFriendRequestResponse (st : St) (userId : Nat) (username : String)
    (m : InMsg) (now : Nat) : St × List Send :=
  let st2 : St :=
    if m.rstatus == "accepted" then
      { st with
        notifications := st.notifications ++
          [{ id := st.nextNotifId, userId := m.from_user_id,
             kind := "friend_accepted", fromUserId := userId, body := none,
             isRead := false, createdAt := now }],
        nextNotifId := st.nextNotifId + 1 }
    else st
  (st2,
    if isOnline st m.from_user_id then
      [(m.from_user_id,
        { type := "friend_request_response", request_id := some m.request_id,
          from_user_id := some userId, from_username := some username,
          to_user_id := some m.from_user_id, ans_status := some m.rstatus,
          timestamp := some now })]
    else [])

/-- `handleFriendAdded` (lines 335-367): push to the caller if online.  The
second push (to `friend_id`) builds an object that references the undeclared
variable `username`; evaluating it throws a ReferenceError that the catch
block swallows, so no second event is ever emitted. -/
def handleFriendAdded (st : St) (userId : Nat) (m : InMsg) (now : Nat) :
    St × List Send :=
  (st,
    if isOnline st userId then
      [(userId,
        { type := "friend_added", friend_id := some m.friend_id,
          friend_username := some m.friend_username,
          timestamp := some now })]
    else [])

/-- `handleTypingNotification` (lines 369-383). -/
def handleTypingNotification (st : St) (userId : Nat) (username : String)
    (m : InMsg) (now : Nat) : St × List Send :=
  (st,
    if isOnline st m.to_user_id then
      [(m.to_user_id,
        { type := "typing", from_user_id := some userId,
          from_username := some username, is_typing := some m.is_typing,
          timestamp := some now })]
    else [])

/-- `handleReadReceipt` (lines 385-409): set `is_read` on the rows matching
both the message id and the caller as receiver, then push the ack to the
`from_user_id` named by the inbound event if that user is online. -/
def handleReadReceipt (st : St) (userId : Nat) (m : InMsg) (now : Nat) :
    St × List Send :=
  let st2 : St :=
    { st with
      messages := st.messages.map (fun mm =>
        if (mm.id == m.message_id) && (mm.receiverId == userId) then
          { mm with isRead := true }
        else mm) }
  (st2,
    if isOnline st m.from_user_id then
      [(m.from_user_id,
        { type := "read_receipt", message_id := some m.message_id,
          read_by := some userId, timestamp := some now })]
    else [])

/-- The bare `pong` reply of line 230: no timestamp. -/
def pongEvent : Event := { type := "pong" }

/-- `handleMessage` (lines 207-238): dispatch on the declared type;
unrecognized types fall through with no effect. -/
def handleMessage (st : St) (userId : Nat) (username : String) (m : InMsg)
    (now : Nat) : St × List Send :=
  match m.type with
  | "private_message" => handlePrivateMessage st userId username m now
  | "friend_request" => handleFriendRequest st userId username m now
  | "friend_request_response" => handleFriendRequestResponse st userId username m now
  | "typing" => handleTypingNotification st userId username m now
  | "read_receipt" => handleReadReceipt st userId m now
  | "ping" => (st, [(userId, pongEvent)])
  | "friend_added" => handleFriendAdded st userId m now
  | _ => (st, [])

/-- The `connected` ack of lines 168-172: no timestamp field. -/
def connectedAck (userId : Nat) (username : String) : Event :=
  { type := "connected", message := some "Conectado al servidor de chat",
    user_id := some userId, username := some username }

/-- Connection handler (lines 142-176): register, send the `connected` ack,
deliver pending notifications. -/
def connect (st : St) (u : Nat) (uname : String) : St × List Send :=
  let st2 : St := { st with online := insertK st.online u }
  let pn := sendPendingNotifications st2.notifications u
  ({ st2 with notifications := pn.1 }, (u, connectedAck u uname) :: pn.2)

end ChatOnly.CS

namespace ChatOnly.ConnectFlow

/-!
## Connect-time snapshot and pending-notification delivery

The specification's connect lifecycle (spec 4.4) delivers the online-friend
snapshot and the unread notifications.  The snapshot is
`sendOnlineFriendsList` of `src/unnamed/part_002` (lines 169-200, the
registry-checked variant); the notification path is
`sendPendingNotifications` of `src/chat-server.js` (embedded above).  The
registry maps user ids to display names. -/

structure St where
  notifications : List Notif
  friends : List FriendRow
  online : List (Nat × String)
deriving DecidableEq

/-- `sendOnlineFriendsList` of part_002: for each accepted friend currently
in the registry, push a `friend_online` snapshot entry to the connecting
user. -/
def sendOnlineFriendsList (st : St) (u now : Nat) : List Send :=
  ((acceptedFriendIds st.friends u).filter
      (fun f => (st.online.lookup f).isSome)).map
    (fun f => (u, { type := "friend_online", user_id := some f,
                    username := st.online.lookup f,
                    timestamp := some now }))

/-- Connect: register the user, send the `connected` ack, push the snapshot,
then deliver and mark pending notifications. -/
def connect (st : St) (u : Nat) (uname : String) (now : Nat) :
    St × List Send :=
  let st2 : St := { st with online := setA st.online u uname }
  let snap := sendOnlineFriendsList st2 u now
  let pn := sendPendingNotifications st2.notifications u
  ({ st2 with notifications := pn.1 },
    (u, { type := "connected", message := some "Conectado al servidor de chat",
          user_id := some u, username := some uname,
          timestamp := some now }) :: snap ++ pn.2)

end ChatOnly.ConnectFlow

namespace ChatOnly

/-! ## Helper lemmas on the map embedding -/

theorem lookup_delA_self {α : Type} (m : List (Nat × α)) (k : Nat) :
    (delA m k).lookup k = none := by
  induction m with
  | nil => rfl
  | cons p t ih =>
      rcases p with ⟨a, b⟩
      by_cases h : a = k
      · simpa [delA, List.filter_cons, h] using ih
      · have hk : (k == a) = false := beq_eq_false_iff_ne.mpr (Ne.symm h)
        simpa [delA, List.filter_cons, bne_iff_ne, h, List.lookup, hk] using ih

theorem lookup_delA_ne {α : Type} (m : List (Nat × α)) (k k2 : Nat)
    (h : k2 ≠ k) : (delA m k).lookup k2 = m.lookup k2 := by
  induction m with
  | nil => rfl
  | cons p t ih =>
      rcases p with ⟨a, b⟩
      by_cases hp : a = k
      · subst hp
        have h2 : (k2 == a) = false := beq_eq_false_iff_ne.mpr h
        simp only [delA, List.filter_cons, bne_iff_ne] at ih ⊢
        simpa [List.lookup, h2] using ih
      · by_cases hq : k2 = a
        · simp [delA, List.filter_cons, bne_iff_ne, hp, List.lookup, hq]
        · have h2 : (k2 == a) = false := beq_eq_false_iff_ne.mpr hq
          simp only [delA, List.filter_cons, bne_iff_ne, hp] at ih ⊢
          simp only [if_pos (by exact hp : ¬a = k)] at ih ⊢
          simpa [List.lookup, h2] using ih

theorem lookup_setA_self {α : Type} (m : List (Nat × α)) (k : Nat) (v : α) :
    (setA m k v).lookup k = some v := by
  simp [setA, List.lookup]

theorem lookup_setA_ne {α : Type} (m : List (Nat × α)) (k k2 : Nat) (v : α)
    (h : k2 ≠ k) : (setA m k v).lookup k2 = m.lookup k2 := by
  have h2 : (k2 == k) = false := beq_eq_false_iff_ne.mpr h
  simp [setA, List.lookup, h2, lookup_delA_ne m k k2 h]

theorem zip_map_pairs {α β : Type} (f : α → β) :
    ∀ (l : List α), ∀ p ∈ l.zip (l.map f), p.2 = f p.1
  | a :: t, p, hp => by
      cases hp with
      | head => rfl
      | tail _ h => exact zip_map_pairs f t p h

theorem mem_map_const_pair {α β : Type} [DecidableEq α] [DecidableEq β]
    (l : List α) (e : β) (x : α) :
    (x, e) ∈ l.map (fun a => (a, e)) ↔ x ∈ l := by
  simp [List.mem_map]

/-! ## C1: private_message between non-friends (part_003) -/

/-- C1: for every inbound private_message whose sender and receiver are not
accepted friends, the handler persists no Message row and no Notification
row (the state is unchanged), pushes nothing to the receiver regardless of
either party's online state, and pushes exactly one error-typed event to the
sender iff the sender is online. -/
theorem P3.private_message_non_friends_rejected
    (st : P3.St) (s : Nat) (name : String) (r : Nat) (body : String)
    (ts : Option Nat) (now : Nat) (insertOk : Bool)
    (hf : areFriends st.friends s r = false) :
    (P3.handlePrivateMessage st s name r body ts now insertOk).1 = st ∧
    (P3.isOnline st s = true →
      (P3.handlePrivateMessage st s name r body ts now insertOk).2 =
        [(s, P3.nonFriendError now)]) ∧
    (P3.isOnline st s = false →
      (P3.handlePrivateMessage st s name r body ts now insertOk).2 = []) ∧
    (P3.nonFriendError now).type = "error" ∧
    (r ≠ s → ∀ e : Event,
      (r, e) ∉ (P3.handlePrivateMessage st s name r body ts now insertOk).2) := by
  unfold P3.handlePrivateMessage
  rw [hf]
  by_cases ho : P3.isOnline st s
  · refine ⟨by simp [ho], by simp [ho], by simp [ho], rfl, ?_⟩
    intro hrs e hmem
    simp [ho] at hmem
    exact hrs hmem.1
  · refine ⟨by simp [ho], ?_, by simp [ho], rfl, ?_⟩
    · intro hcontra
      rw [hcontra] at ho
      exact absurd rfl ho
    · intro _ e hmem
      simp [ho] at hmem

/-- C1 witness: empty friend table, sender 1 online, receiver 2. -/
theorem P3.private_message_non_friends_rejected_witness :
    (P3.handlePrivateMessage ⟨[], [], [], [1], 0, 0⟩ 1 "a" 2 "hi" none 5 true).2 =
      [(1, P3.nonFriendError 5)] :=
  (P3.private_message_non_friends_rejected ⟨[], [], [], [1], 0, 0⟩ 1 "a" 2
      "hi" none 5 true (by decide)).2.1 (by decide)

end ChatOnly

namespace ChatOnly

/-! ## C2: private_message between friends, receiver online (part_003) -/

/-- C2: handling a private_message between accepted friends with the receiver
online produces exactly one private_message push to the receiver carrying the
new message id, exactly one message_sent ack (with the same id) iff the
sender is still connected, and appends exactly one Message row with
isRead = false. -/
theorem P3.private_message_friends_delivery
    (st : P3.St) (s : Nat) (name : String) (r : Nat) (body : String)
    (ts : Option Nat) (now : Nat)
    (hf : areFriends st.friends s r = true)
    (hr : P3.isOnline st r = true) :
    (P3.handlePrivateMessage st s name r body ts now true).1.messages =
      st.messages ++
        [{ id := st.nextMsgId, senderId := s, receiverId := r, body := body,
           isRead := false, createdAt := now }] ∧
    ((P3.handlePrivateMessage st s name r body ts now true).2.filter
        (fun p => (p.1 == r) && (p.2.type == "private_message"))) =
      [(r, { type := "private_message", from_user_id := some s,
             from_username := some name, to_user_id := some r,
             message := some body, message_id := some st.nextMsgId,
             timestamp := some (ts.getD now), created_at := some now })] ∧
    (P3.isOnline st s = true →
      ((P3.handlePrivateMessage st s name r body ts now true).2.filter
          (fun p => p.2.type == "message_sent")) =
        [(s, { type := "message_sent", message_id := some st.nextMsgId,
               to_user_id := some r, timestamp := some (ts.getD now),
               created_at := some now })]) ∧
    (P3.isOnline st s = false →
      ((P3.handlePrivateMessage st s name r body ts now true).2.filter
          (fun p => p.2.type == "message_sent")) = []) := by
  have h1 : (("message_sent" : String) == "private_message") = false := by decide
  have h2 : (("private_message" : String) == "private_message") = true := by decide
  have h3 : (("private_message" : String) == "message_sent") = false := by decide
  have h4 : (("message_sent" : String) == "message_sent") = true := by decide
  by_cases hs : P3.isOnline st s
  · refine ⟨?_, ?_, ?_, ?_⟩
    · simp [P3.handlePrivateMessage, hf, hr, hs]
    · simp [P3.handlePrivateMessage, hf, hr, hs, List.filter_cons, h1, h2]
    · intro _
      simp [P3.handlePrivateMessage, hf, hr, hs, List.filter_cons, h3, h4]
    · intro hcon
      rw [hcon] at hs
      simp at hs
  · refine ⟨?_, ?_, ?_, ?_⟩
    · simp [P3.handlePrivateMessage, hf, hr, hs]
    · simp [P3.handlePrivateMessage, hf, hr, hs, List.filter_cons, h1, h2]
    · intro hcon
      rw [hcon] at hs
      simp at hs
    · intro _
      simp [P3.handlePrivateMessage, hf, hr, hs, List.filter_cons, h3, h4]

/-- C2 witness: users 1 and 2 accepted friends, both online; next message id
is 7. -/
theorem P3.private_message_friends_delivery_witness :
    ((P3.handlePrivateMessage
        ⟨[], [], [⟨1, 2, "accepted"⟩], [1, 2], 7, 0⟩ 1 "a" 2 "hi" none 5
        true).2.filter
      (fun p => (p.1 == 2) && (p.2.type == "private_message"))) =
      [(2, { type := "private_message", from_user_id := some 1,
             from_username := some "a", to_user_id := some 2,
             message := some "hi", message_id := some 7,
             timestamp := some 5, created_at := some 5 })] :=
  (P3.private_message_friends_delivery
      ⟨[], [], [⟨1, 2, "accepted"⟩], [1, 2], 7, 0⟩ 1 "a" 2 "hi" none 5
      (by decide) (by decide)).2.1

/-! ## C8: message-insert failure aborts side effects (part_003) -/

/-- C8: when the Storage Gateway insert of the Message fails while handling a
private_message between accepted friends, the handler performs no further
side effect: the state (hence the Message and Notification tables) is
unchanged, nothing is pushed to the receiver, the handler returns normally,
and an error-typed event goes to the sender iff the sender is online. -/
theorem P3.insert_failure_aborts_side_effects
    (st : P3.St) (s : Nat) (name : String) (r : Nat) (body : String)
    (ts : Option Nat) (now : Nat)
    (hf : areFriends st.friends s r = true) :
    (P3.handlePrivateMessage st s name r body ts now false).1 = st ∧
    (P3.isOnline st s = true →
      (P3.handlePrivateMessage st s name r body ts now false).2 =
        [(s, P3.sendError now)]) ∧
    (P3.isOnline st s = false →
      (P3.handlePrivateMessage st s name r body ts now false).2 = []) ∧
    (P3.sendError now).type = "error" ∧
    (r ≠ s → ∀ e : Event,
      (r, e) ∉ (P3.handlePrivateMessage st s name r body ts now false).2) := by
  unfold P3.handlePrivateMessage
  rw [hf]
  by_cases hs : P3.isOnline st s
  · refine ⟨by simp [hs], by simp [hs], ?_, rfl, ?_⟩
    · intro hcon
      rw [hcon] at hs
      simp at hs
    · intro hrs e hmem
      simp [hs] at hmem
      exact hrs hmem.1
  · refine ⟨by simp [hs], ?_, by simp [hs], rfl, ?_⟩
    · intro hcon
      rw [hcon] at hs
      simp at hs
    · intro _ e hmem
      simp [hs] at hmem

/-- C8 witness: users 1 and 2 accepted friends, sender 1 online, insert
fails. -/
theorem P3.insert_failure_aborts_side_effects_witness :
    (P3.handlePrivateMessage
        ⟨[], [], [⟨1, 2, "accepted"⟩], [1], 0, 0⟩ 1 "a" 2 "hi" none 5
        false).1 =
      ⟨[], [], [⟨1, 2, "accepted"⟩], [1], 0, 0⟩ :=
  (P3.insert_failure_aborts_side_effects
      ⟨[], [], [⟨1, 2, "accepted"⟩], [1], 0, 0⟩ 1 "a" 2 "hi" none 5
      (by decide)).1

end ChatOnly

namespace ChatOnly

/-! ## C7: read_receipt frame property (chat-server.js) -/

/-- C7: a read_receipt for message id M issued by caller C sets isRead to
true exactly on the rows whose id is M and whose receiverId is C; every
other row — in particular one with the same id and a different receiver —
keeps its isRead value, every field other than isRead of every row is
unchanged, and no row is added or removed. -/
theorem CS.read_receipt_updates_only_matching_row
    (st : CS.St) (caller : Nat) (m : CS.InMsg) (now : Nat) :
    ((CS.handleReadReceipt st caller m now).1.messages.length =
      st.messages.length) ∧
    ∀ p ∈ st.messages.zip (CS.handleReadReceipt st caller m now).1.messages,
      p.2.id = p.1.id ∧ p.2.senderId = p.1.senderId ∧
      p.2.receiverId = p.1.receiverId ∧ p.2.body = p.1.body ∧
      p.2.createdAt = p.1.createdAt ∧
      (p.1.id = m.message_id ∧ p.1.receiverId = caller → p.2.isRead = true) ∧
      (¬(p.1.id = m.message_id ∧ p.1.receiverId = caller) →
        p.2.isRead = p.1.isRead) := by
  have hEq : (CS.handleReadReceipt st caller m now).1.messages =
      st.messages.map (fun mm =>
        if (mm.id == m.message_id) && (mm.receiverId == caller) then
          { mm with isRead := true }
        else mm) := rfl
  constructor
  · rw [hEq, List.length_map]
  · intro p hp
    rw [hEq] at hp
    have h2 := zip_map_pairs (fun mm : Msg =>
      if (mm.id == m.message_id) && (mm.receiverId == caller) then
        { mm with isRead := true }
      else mm) st.messages p hp
    by_cases hc : p.1.id = m.message_id ∧ p.1.receiverId = caller
    · have hb : ((p.1.id == m.message_id) && (p.1.receiverId == caller)) = true := by
        simp [hc.1, hc.2]
      have h3 : p.2 = { p.1 with isRead := true } := by
        rw [h2]
        simp [hb]
      rw [h3]
      refine ⟨rfl, rfl, rfl, rfl, rfl, fun _ => rfl, fun hn => absurd hc hn⟩
    · have hb : ((p.1.id == m.message_id) && (p.1.receiverId == caller)) = false := by
        rcases not_and_or.mp hc with h | h
        · simp [beq_eq_false_iff_ne.mpr h]
        · simp [beq_eq_false_iff_ne.mpr h]
      have h3 : p.2 = p.1 := by
        rw [h2]
        simp [hb]
      rw [h3]
      refine ⟨rfl, rfl, rfl, rfl, rfl, fun hcon => absurd hcon hc, fun _ => rfl⟩

/-- C7 witness: two rows with the same id 5 and receivers 1 and 2; caller 1
issues the receipt; the row owned by receiver 2 keeps its isRead value. -/
theorem CS.read_receipt_updates_only_matching_row_witness :
    ((⟨5, 10, 2, "y", false, 0⟩, ⟨5, 10, 2, "y", false, 0⟩) : Msg × Msg).2.isRead =
      (⟨5, 10, 2, "y", false, 0⟩ : Msg).isRead :=
  ((CS.read_receipt_updates_only_matching_row
      ⟨[⟨5, 10, 1, "x", false, 0⟩, ⟨5, 10, 2, "y", false, 0⟩], [], [], 0, 0⟩ 1
      { type := "read_receipt", message_id := 5, from_user_id := 10 } 3).2
    ((⟨5, 10, 2, "y", false, 0⟩, ⟨5, 10, 2, "y", false, 0⟩) : Msg × Msg)
    (by decide)).2.2.2.2.2.2 (by decide)

/-! ## C10: the read_receipt ack is outcome-independent (chat-server.js) -/

/-- C10: handling a read_receipt pushes the ack to whichever user the
inbound event names in from_user_id exactly when that user is online; the
sends do not depend on the message store at all (so the ack is also sent
when the update matched no row), and the named user is never checked against
the stored sender of the message. -/
theorem CS.read_receipt_ack_unconditional
    (st : CS.St) (caller : Nat) (m : CS.InMsg) (now : Nat) :
    (CS.isOnline st m.from_user_id = true →
      (CS.handleReadReceipt st caller m now).2 =
        [(m.from_user_id,
          { type := "read_receipt", message_id := some m.message_id,
            read_by := some caller, timestamp := some now })]) ∧
    (CS.isOnline st m.from_user_id = false →
      (CS.handleReadReceipt st caller m now).2 = []) ∧
    (∀ other : List Msg,
      (CS.handleReadReceipt { st with messages := other } caller m now).2 =
        (CS.handleReadReceipt st caller m now).2) := by
  refine ⟨?_, ?_, fun other => rfl⟩
  · intro h
    simp [CS.handleReadReceipt, h]
  · intro h
    simp [CS.handleReadReceipt, h]

/-- C10 witness: empty message store (the update matches no row), the named
user 3 is online, and the ack is still pushed to user 3. -/
theorem CS.read_receipt_ack_unconditional_witness :
    (CS.handleReadReceipt ⟨[], [], [3], 0, 0⟩ 1
        { type := "read_receipt", message_id := 9, from_user_id := 3 } 4).2 =
      [(3, { type := "read_receipt", message_id := some 9, read_by := some 1,
             timestamp := some 4 })] :=
  (CS.read_receipt_ack_unconditional ⟨[], [], [3], 0, 0⟩ 1
      { type := "read_receipt", message_id := 9, from_user_id := 3 } 4).1
    (by decide)

end ChatOnly

namespace ChatOnly

/-! ## C4: isOnline tracks the socket sets (chat-server.js registry) -/

theorem addSock_ne_nil (s : List Nat) (c : Nat) : addSock s c ≠ [] := by
  unfold addSock
  split
  · exact List.ne_nil_of_mem (by assumption)
  · simp

theorem CSReg.unregister_eq_none {r : CSReg.Reg} {u c : Nat}
    (h : r.userSockets.lookup u = none) : CSReg.unregister r u c = r := by
  unfold CSReg.unregister
  rw [h]

theorem CSReg.unregister_eq_last {r : CSReg.Reg} {u c : Nat} {socks : List Nat}
    (h : r.userSockets.lookup u = some socks)
    (he : (socks.filter (fun x => x != c)).isEmpty = true) :
    CSReg.unregister r u c =
      ⟨delA r.onlineUsers u, delA r.userSockets u⟩ := by
  unfold CSReg.unregister
  rw [h]
  simp [he]

theorem CSReg.unregister_eq_keep {r : CSReg.Reg} {u c : Nat} {socks : List Nat}
    (h : r.userSockets.lookup u = some socks)
    (he : (socks.filter (fun x => x != c)).isEmpty = false) :
    CSReg.unregister r u c =
      { r with
        userSockets := setA r.userSockets u (socks.filter (fun x => x != c)) } := by
  unfold CSReg.unregister
  rw [h]
  simp [he]

theorem CSReg.reach_inv {r : CSReg.Reg} (h : CSReg.Reach r) :
    ∀ u : Nat,
      ((r.onlineUsers.lookup u).isSome ↔ (r.userSockets.lookup u).isSome) ∧
      (∀ l, r.userSockets.lookup u = some l → l ≠ []) := by
  induction h with
  | start =>
      intro u
      exact ⟨by simp [List.lookup], fun l hl => by simp [List.lookup] at hl⟩
  | step_register u0 c hr ih =>
      intro u
      by_cases hu : u = u0
      · subst hu
        refine ⟨?_, ?_⟩
        · simp [CSReg.register, lookup_setA_self]
        · intro l hl
          rw [show (CSReg.register _ u c).userSockets =
                setA _ u (addSock (CSReg.socketsOf _ u) c) from rfl,
              lookup_setA_self] at hl
          cases hl
          exact addSock_ne_nil _ _
      · refine ⟨?_, ?_⟩
        · simpa [CSReg.register, lookup_setA_ne _ _ _ _ hu] using (ih u).1
        · intro l hl
          rw [show (CSReg.register _ u0 c).userSockets =
                setA _ u0 (addSock (CSReg.socketsOf _ u0) c) from rfl,
              lookup_setA_ne _ _ _ _ hu] at hl
          exact (ih u).2 l hl
  | step_unregister u0 c hr ih =>
      rename_i r0
      intro u
      rcases hlook : r0.userSockets.lookup u0 with _ | socks
      · rw [CSReg.unregister_eq_none hlook]
        exact ih u
      · by_cases hemp : (socks.filter (fun x => x != c)).isEmpty = true
        · rw [CSReg.unregister_eq_last hlook hemp]
          by_cases hu : u = u0
          · subst hu
            refine ⟨by simp [lookup_delA_self], ?_⟩
            intro l hl
            rw [lookup_delA_self] at hl
            cases hl
          · refine ⟨?_, ?_⟩
            · simpa [lookup_delA_ne _ _ _ hu] using (ih u).1
            · intro l hl
              rw [lookup_delA_ne _ _ _ hu] at hl
              exact (ih u).2 l hl
        · rw [Bool.not_eq_true] at hemp
          rw [CSReg.unregister_eq_keep hlook hemp]
          by_cases hu : u = u0
          · subst hu
            have h1 : (r0.onlineUsers.lookup u).isSome = true :=
              (ih u).1.mpr (by simp [hlook])
            constructor
            · show (r0.onlineUsers.lookup u).isSome = true ↔
                ((setA r0.userSockets u (socks.filter (fun x => x != c))).lookup u).isSome = true
              rw [lookup_setA_self]
              simp [h1]
            · intro l hl
              change (setA r0.userSockets u
                (socks.filter (fun x => x != c))).lookup u = some l at hl
              rw [lookup_setA_self] at hl
              cases hl
              intro hnil
              rw [hnil] at hemp
              simp at hemp
          · constructor
            · show (r0.onlineUsers.lookup u).isSome = true ↔
                ((setA r0.userSockets u0 (socks.filter (fun x => x != c))).lookup u).isSome = true
              rw [lookup_setA_ne _ _ _ _ hu]
              exact (ih u).1
            · intro l hl
              change (setA r0.userSockets u0
                (socks.filter (fun x => x != c))).lookup u = some l at hl
              rw [lookup_setA_ne _ _ _ _ hu] at hl
              exact (ih u).2 l hl

end ChatOnly

namespace ChatOnly

/-- C4: for every reachable registry state, isOnline(U) is true iff the
registry holds at least one live connection for U; in particular, when U
holds exactly the two live connections c and c2, unregistering one leaves U
online, and only after the second is unregistered does isOnline(U) become
false. -/
theorem CSReg.isOnline_iff_live_connection {r : CSReg.Reg}
    (h : CSReg.Reach r) :
    (∀ u, CSReg.isOnline r u = true ↔ CSReg.socketsOf r u ≠ []) ∧
    (∀ u c c2, c ≠ c2 → CSReg.socketsOf r u = [c, c2] →
      CSReg.isOnline (CSReg.unregister r u c) u = true ∧
      CSReg.isOnline (CSReg.unregister (CSReg.unregister r u c) u c2) u
        = false) := by
  have inv := CSReg.reach_inv h
  constructor
  · intro u
    constructor
    · intro hon
      have hs : (r.userSockets.lookup u).isSome = true := (inv u).1.mp hon
      rcases hsome : r.userSockets.lookup u with _ | l
      · rw [hsome] at hs
        simp at hs
      · have hne : l ≠ [] := (inv u).2 l hsome
        simpa [CSReg.socketsOf, hsome] using hne
    · intro hne
      rcases hsome : r.userSockets.lookup u with _ | l
      · exfalso
        apply hne
        simp [CSReg.socketsOf, hsome]
      · exact (inv u).1.mpr (by simp [hsome])
  · intro u c c2 hcc hsocks
    have hsome : r.userSockets.lookup u = some [c, c2] := by
      rcases hs2 : r.userSockets.lookup u with _ | l
      · rw [CSReg.socketsOf, hs2] at hsocks
        simp at hsocks
      · rw [CSReg.socketsOf, hs2] at hsocks
        simp at hsocks
        rw [hsocks]
    have hb : (c2 != c) = true := bne_iff_ne.mpr (Ne.symm hcc)
    have hfilter : List.filter (fun x => x != c) [c, c2] = [c2] := by
      simp [List.filter, hb]
    have hkeep := CSReg.unregister_eq_keep (c := c) hsome
      (by rw [hfilter]; rfl)
    constructor
    · rw [hkeep]
      show (r.onlineUsers.lookup u).isSome = true
      exact (inv u).1.mpr (by simp [hsome])
    · have hsome2 : (CSReg.unregister r u c).userSockets.lookup u =
          some (List.filter (fun x => x != c) [c, c2]) := by
        rw [hkeep]
        exact lookup_setA_self _ _ _
      rw [hfilter] at hsome2
      have hlast := CSReg.unregister_eq_last (c := c2) hsome2 (by simp)
      rw [hlast]
      show ((delA (CSReg.unregister r u c).onlineUsers u).lookup u).isSome
        = false
      rw [lookup_delA_self]
      rfl

/-- C4 witness: user 1 registers connections 11 and 12 on the empty
registry; closing 11 leaves user 1 online, closing 12 as well takes
isOnline to false. -/
theorem CSReg.isOnline_iff_live_connection_witness :
    CSReg.isOnline
        (CSReg.unregister (CSReg.register (CSReg.register ⟨[], []⟩ 1 11) 1 12)
          1 11) 1 = true ∧
    CSReg.isOnline
        (CSReg.unregister
          (CSReg.unregister (CSReg.register (CSReg.register ⟨[], []⟩ 1 11) 1 12)
            1 11) 1 12) 1 = false :=
  (CSReg.isOnline_iff_live_connection
      (CSReg.Reach.step_register 1 12
        (CSReg.Reach.step_register 1 11 CSReg.Reach.start))).2
    1 11 12 (by decide) (by decide)

/-! ## C6: delivery is not a fan-out over all live connections -/

/-- C6 counterexample: user 2 registers connections 11 and then 12; the
delivery step of handlePrivateMessage writes only to handle 12, so the live
registered connection 11 receives nothing — the claimed fan-out over every
live connection is false. -/
theorem CSReg.sendTo_not_fanout_cex :
    ¬ (∀ c ∈ CSReg.socketsOf
          (CSReg.register (CSReg.register ⟨[], []⟩ 2 11) 2 12) 2,
        (c, ({ type := "private_message" } : Event)) ∈
          CSReg.sendToUser (CSReg.register (CSReg.register ⟨[], []⟩ 2 11) 2 12)
            2 { type := "private_message" }) := by
  decide

/-- C6 amended: delivering an event to a user id serializes the event and
writes it to exactly the single connection handle most recently registered
for that user (one write when the user is registered, none otherwise);
other live connections of the target receive nothing, and no writable-state
check is made on the message path. -/
theorem CSReg.sendTo_single_recent_handle
    (r : CSReg.Reg) (uid : Nat) (e : Event) :
    (∀ c : Nat, CSReg.sendToUser (CSReg.register r uid c) uid e = [(c, e)]) ∧
    (r.onlineUsers.lookup uid = none → CSReg.sendToUser r uid e = []) ∧
    (∀ w, r.onlineUsers.lookup uid = some w →
      CSReg.sendToUser r uid e = [(w, e)]) := by
  refine ⟨?_, ?_, ?_⟩
  · intro c
    show (match (setA r.onlineUsers uid c).lookup uid with
      | some ws => [(ws, e)]
      | none => []) = [(c, e)]
    rw [lookup_setA_self]
  · intro h
    show (match r.onlineUsers.lookup uid with
      | some ws => [(ws, e)]
      | none => []) = []
    rw [h]
  · intro w h
    show (match r.onlineUsers.lookup uid with
      | some ws => [(ws, e)]
      | none => []) = [(w, e)]
    rw [h]

/-- C6 amended witness: on a registry where user 2 registered handle 11
last, delivery writes exactly once, to handle 11. -/
theorem CSReg.sendTo_single_recent_handle_witness :
    CSReg.sendToUser (CSReg.register ⟨[], []⟩ 2 11) 2 { type := "typing" } =
      [(11, { type := "typing" })] :=
  (CSReg.sendTo_single_recent_handle (CSReg.register ⟨[], []⟩ 2 11) 2
      { type := "typing" }).2.2 11 (by decide)

end ChatOnly

namespace ChatOnly

/-! ## C3: offline broadcast on last disconnect (part_001) -/

theorem mem_insertK (l : List Nat) (u v : Nat) :
    v ∈ insertK l u ↔ (v = u ∨ v ∈ l) := by
  unfold insertK
  split
  · constructor
    · exact Or.inr
    · rintro (rfl | hv)
      · assumption
      · exact hv
  · simp [List.mem_cons]

theorem mem_removeK (l : List Nat) (u v : Nat) :
    v ∈ removeK l u ↔ (v ∈ l ∧ v ≠ u) := by
  unfold removeK
  simp [List.mem_filter, bne_iff_ne]

theorem P1.disconnect_eq_none {st : P1.St} {u c now : Nat}
    (h : st.userSockets.lookup u = none) :
    P1.disconnect st u c now = (st, []) := by
  unfold P1.disconnect
  rw [h]

theorem P1.disconnect_eq_last {st : P1.St} {u c now : Nat}
    {socks : List Nat} (h : st.userSockets.lookup u = some socks)
    (he : (socks.filter (fun x => x != c)).isEmpty = true) :
    P1.disconnect st u c now =
      (⟨delA st.userSockets u, removeK st.onlineK u, removeK st.dbOnline u,
         st.friends⟩,
       P1.notifyFriendsOffline
         ⟨delA st.userSockets u, removeK st.onlineK u, removeK st.dbOnline u,
          st.friends⟩ u now) := by
  unfold P1.disconnect
  rw [h]
  simp [he]

theorem P1.disconnect_eq_keep {st : P1.St} {u c now : Nat}
    {socks : List Nat} (h : st.userSockets.lookup u = some socks)
    (he : (socks.filter (fun x => x != c)).isEmpty = false) :
    P1.disconnect st u c now =
      ({ st with
         userSockets := setA st.userSockets u
           (socks.filter (fun x => x != c)) }, []) := by
  unfold P1.disconnect
  rw [h]
  simp [he]

/-- Reachability invariant of part_001: after every completed handler, a user
is in the `onlineUsers` map iff their `users` row has `is_online = 1` (both
are updated together on connect and on last disconnect). -/
theorem P1.reach_dbOnline_eq_mem {st : P1.St} (h : P1.Reach st) :
    ∀ v : Nat, v ∈ st.onlineK ↔ v ∈ st.dbOnline := by
  induction h with
  | start friends =>
      intro v
      simp
  | step_connect u c name now hr ih =>
      rename_i st0
      intro v
      show v ∈ insertK st0.onlineK u ↔ v ∈ insertK st0.dbOnline u
      rw [mem_insertK, mem_insertK]
      exact or_congr Iff.rfl (ih v)
  | step_disconnect u c now hr ih =>
      rename_i st0
      intro v
      rcases hlook : st0.userSockets.lookup u with _ | socks
      · rw [P1.disconnect_eq_none hlook]
        exact ih v
      · by_cases hemp : (socks.filter (fun x => x != c)).isEmpty = true
        · rw [P1.disconnect_eq_last hlook hemp]
          show v ∈ removeK st0.onlineK u ↔ v ∈ removeK st0.dbOnline u
          rw [mem_removeK, mem_removeK]
          exact and_congr (ih v) Iff.rfl
        · rw [Bool.not_eq_true] at hemp
          rw [P1.disconnect_eq_keep hlook hemp]
          exact ih v
  | step_friends F hr ih =>
      intro v
      exact ih v

/-- C3: in every reachable part_001 state, closing the last live connection
of user u pushes a friend_offline event to exactly those users who are
accepted friends of u and are themselves still online (u itself, now fully
offline, receives nothing even in a degenerate self-friendship); closing a
connection while u still has another live one pushes nothing at all. -/
theorem P1.last_disconnect_notifies_online_friends
    {st : P1.St} (h : P1.Reach st) (u c now : Nat) (socks : List Nat)
    (hs : st.userSockets.lookup u = some socks) :
    ((socks.filter (fun x => x != c)).isEmpty = true →
      ∀ f : Nat,
        ((f, P1.offlineEv u now) ∈ (P1.disconnect st u c now).2 ↔
          (f ∈ acceptedFriendIds st.friends u ∧ f ∈ st.onlineK ∧ f ≠ u))) ∧
    ((socks.filter (fun x => x != c)).isEmpty = false →
      (P1.disconnect st u c now).2 = []) := by
  have inv := P1.reach_dbOnline_eq_mem h
  constructor
  · intro hemp f
    rw [P1.disconnect_eq_last hs hemp]
    show (f, P1.offlineEv u now) ∈
        ((acceptedFriendIds st.friends u).filter
          (fun f2 => (removeK st.dbOnline u).contains f2 &&
            (removeK st.onlineK u).contains f2)).map
          (fun f2 => (f2, P1.offlineEv u now)) ↔ _
    rw [mem_map_const_pair, List.mem_filter]
    constructor
    · rintro ⟨hacc, hb⟩
      rw [Bool.and_eq_true, List.contains, List.elem_iff, List.contains,
        List.elem_iff, mem_removeK, mem_removeK] at hb
      exact ⟨hacc, hb.2.1, hb.2.2⟩
    · rintro ⟨hacc, hon, hne⟩
      refine ⟨hacc, ?_⟩
      rw [Bool.and_eq_true, List.contains, List.elem_iff, List.contains,
        List.elem_iff, mem_removeK, mem_removeK]
      exact ⟨⟨(inv f).mp hon, hne⟩, ⟨hon, hne⟩⟩
  · intro hemp
    rw [P1.disconnect_eq_keep hs hemp]

/-- C3 witness: users 1 and 2 are accepted friends and both connect; closing
user 1's only connection delivers friend_offline to user 2. -/
theorem P1.last_disconnect_notifies_online_friends_witness :
    (2, P1.offlineEv 1 5) ∈
      (P1.disconnect
        (P1.connect (P1.connect ⟨[], [], [], [⟨1, 2, "accepted"⟩]⟩
            1 11 "a" 0).1 2 22 "b" 0).1 1 11 5).2 :=
  ((P1.last_disconnect_notifies_online_friends
      (P1.Reach.step_connect 2 22 "b" 0
        (P1.Reach.step_connect 1 11 "a" 0
          (P1.Reach.start [⟨1, 2, "accepted"⟩]))) 1 11 5 [11]
      (by decide)).1 (by decide) 2).mpr (by decide)

end ChatOnly

namespace ChatOnly

/-! ## C5: connect-time snapshot and notification delivery -/

theorem zip_self_pairs {α : Type} : ∀ (l : List α), ∀ p ∈ l.zip l, p.2 = p.1
  | a :: t, p, hp => by
      cases hp with
      | head => rfl
      | tail _ h => exact zip_self_pairs t p h

/-- Every send of sendPendingNotifications targets the user, has no user_id
field, and carries the id of some unread notification row of that user. -/
theorem sendPendingNotifications_sends_shape (notifs : List Notif) (u : Nat) :
    ∀ p ∈ (sendPendingNotifications notifs u).2,
      p.1 = u ∧ p.2.user_id = none ∧
      ∃ n, n ∈ notifs ∧ p.2.notification_id = some n.id ∧
        n.userId = u ∧ n.isRead = false := by
  intro p hp
  simp only [sendPendingNotifications] at hp
  rw [List.mem_map] at hp
  rcases hp with ⟨n, hn, rfl⟩
  have hn2 : n ∈ (notifs.filter
      (fun n2 => (n2.userId == u) && !n2.isRead)).reverse :=
    List.take_subset _ _ hn
  rw [List.mem_reverse] at hn2
  rw [List.mem_filter] at hn2
  have hcond := hn2.2
  rw [Bool.and_eq_true, beq_iff_eq, Bool.not_eq_true'] at hcond
  exact ⟨rfl, rfl, n, hn2.1, rfl, hcond.1, hcond.2⟩

/-- After sendPendingNotifications, the user has no unread notification
left: the closing UPDATE marks every unread row of the user read. -/
theorem sendPendingNotifications_clears_unread (notifs : List Notif)
    (u : Nat) :
    ((sendPendingNotifications notifs u).1.filter
      (fun n => (n.userId == u) && !n.isRead)) = [] := by
  by_cases hemp :
      (notifs.filter (fun n => (n.userId == u) && !n.isRead)) = []
  · have hres : (sendPendingNotifications notifs u).1 = notifs := by
      simp [sendPendingNotifications, hemp]
    rw [hres, hemp]
  · rcases hrev : (notifs.filter
        (fun n => (n.userId == u) && !n.isRead)).reverse with _ | ⟨a, t⟩
    · exact absurd (List.reverse_eq_nil_iff.mp hrev) hemp
    · have hres : (sendPendingNotifications notifs u).1 =
          notifs.map (fun n =>
            if (n.userId == u) && !n.isRead then { n with isRead := true }
            else n) := by
        simp [sendPendingNotifications, hrev]
      rw [hres]
      rw [List.filter_eq_nil_iff]
      intro b hb
      rw [List.mem_map] at hb
      rcases hb with ⟨n, hn, rfl⟩
      by_cases hcond : ((n.userId == u) && !n.isRead) = true
      · simp [hcond]
      · rw [Bool.not_eq_true] at hcond
        simp [hcond]

/-- Frame property of sendPendingNotifications: rows keep every field except
isRead, and isRead afterwards is isRead-before OR owned-by-the-user.  In
particular rows of other users are untouched and previously-read rows stay
read. -/
theorem sendPendingNotifications_frame (notifs : List Notif) (u : Nat) :
    ∀ p ∈ notifs.zip (sendPendingNotifications notifs u).1,
      p.2.id = p.1.id ∧ p.2.userId = p.1.userId ∧ p.2.kind = p.1.kind ∧
      p.2.fromUserId = p.1.fromUserId ∧ p.2.body = p.1.body ∧
      p.2.createdAt = p.1.createdAt ∧
      p.2.isRead = (p.1.isRead || (p.1.userId == u)) := by
  by_cases hemp :
      (notifs.filter (fun n => (n.userId == u) && !n.isRead)) = []
  · have hres : (sendPendingNotifications notifs u).1 = notifs := by
      simp [sendPendingNotifications, hemp]
    rw [hres]
    rintro ⟨n1, n2⟩ hp
    have hpp : n2 = n1 := zip_self_pairs notifs (n1, n2) hp
    have hmemz : n1 ∈ notifs := (List.of_mem_zip hp).1
    have hno := List.filter_eq_nil_iff.mp hemp n1 hmemz
    show n2.id = n1.id ∧ n2.userId = n1.userId ∧ n2.kind = n1.kind ∧
      n2.fromUserId = n1.fromUserId ∧ n2.body = n1.body ∧
      n2.createdAt = n1.createdAt ∧
      n2.isRead = (n1.isRead || (n1.userId == u))
    rw [hpp]
    refine ⟨rfl, rfl, rfl, rfl, rfl, rfl, ?_⟩
    cases hr : n1.isRead
    · cases hu2 : (n1.userId == u)
      · simp
      · exfalso
        apply hno
        rw [hu2, hr]
        rfl
    · simp
  · rcases hrev : (notifs.filter
        (fun n => (n.userId == u) && !n.isRead)).reverse with _ | ⟨a, t⟩
    · exact absurd (List.reverse_eq_nil_iff.mp hrev) hemp
    · have hres : (sendPendingNotifications notifs u).1 =
          notifs.map (fun n =>
            if (n.userId == u) && !n.isRead then { n with isRead := true }
            else n) := by
        simp [sendPendingNotifications, hrev]
      rw [hres]
      rintro ⟨n1, n2⟩ hp
      have hpair : n2 = (fun n =>
          if (n.userId == u) && !n.isRead then { n with isRead := true }
          else n) n1 :=
        zip_map_pairs (fun n =>
          if (n.userId == u) && !n.isRead then { n with isRead := true }
          else n) notifs (n1, n2) hp
      show n2.id = n1.id ∧ n2.userId = n1.userId ∧ n2.kind = n1.kind ∧
        n2.fromUserId = n1.fromUserId ∧ n2.body = n1.body ∧
        n2.createdAt = n1.createdAt ∧
        n2.isRead = (n1.isRead || (n1.userId == u))
      by_cases hcond : ((n1.userId == u) && !n1.isRead) = true
      · have h2 : n2 = { n1 with isRead := true } := by
          rw [hpair]
          simp [hcond]
        rw [h2]
        rw [Bool.and_eq_true, Bool.not_eq_true'] at hcond
        refine ⟨rfl, rfl, rfl, rfl, rfl, rfl, ?_⟩
        simp [hcond.1, hcond.2]
      · rw [Bool.not_eq_true] at hcond
        have h2 : n2 = n1 := by
          rw [hpair]
          simp [hcond]
        rw [h2]
        refine ⟨rfl, rfl, rfl, rfl, rfl, rfl, ?_⟩
        cases hu2 : (n1.userId == u)
        · simp
        · cases hr : n1.isRead
          · exfalso
            rw [hu2, hr] at hcond
            simp at hcond
          · simp

end ChatOnly

namespace ChatOnly

/-- Membership in the connect-time friend_online snapshot is exactly
accepted friendship plus presence in the registry. -/
theorem ConnectFlow.snapshot_mem (st : ConnectFlow.St) (u now f : Nat) :
    ((u, { type := "friend_online", user_id := some f,
           username := st.online.lookup f,
           timestamp := some now }) ∈
        ConnectFlow.sendOnlineFriendsList st u now) ↔
      (f ∈ acceptedFriendIds st.friends u ∧
        (st.online.lookup f).isSome = true) := by
  unfold ConnectFlow.sendOnlineFriendsList
  rw [List.mem_map]
  constructor
  · rintro ⟨f2, hf2, heq⟩
    have hf : f2 = f := by
      have h3 := congrArg (fun p : Send => p.2.user_id) heq
      simpa using h3
    subst hf
    rw [List.mem_filter] at hf2
    exact ⟨hf2.1, hf2.2⟩
  · rintro ⟨hacc, hon⟩
    exact ⟨f, List.mem_filter.mpr ⟨hacc, hon⟩, rfl⟩

/-- Shape of the snapshot sends: addressed to the connecting user, typed
friend_online, no notification id, and a user_id field present. -/
theorem ConnectFlow.snapshot_sends_shape (st : ConnectFlow.St) (u now : Nat) :
    ∀ p ∈ ConnectFlow.sendOnlineFriendsList st u now,
      p.1 = u ∧ p.2.notification_id = none ∧ p.2.type = "friend_online" ∧
      p.2.user_id ≠ none := by
  intro p hp
  unfold ConnectFlow.sendOnlineFriendsList at hp
  rw [List.mem_map] at hp
  rcases hp with ⟨f2, hf2, rfl⟩
  exact ⟨rfl, rfl, rfl, by simp⟩

end ChatOnly

namespace ChatOnly

/-- C5 amended: on connect the server delivers the snapshot of currently
online accepted friends plus the at most 10 newest unread notifications,
and marks every unread notification of the connecting user read — the
undelivered ones beyond the newest 10 included; an immediately following
fetch of unread notifications returns none; rows of other users and all
fields other than isRead are untouched; every delivered notification push
names an unread notification row of the user, and the number of delivered
pushes is min 10 (number of unread rows). -/
theorem ConnectFlow.connect_delivery_amended
    (st : ConnectFlow.St) (u : Nat) (uname : String) (now : Nat) :
    (∀ f : Nat,
      ((u, { type := "friend_online", user_id := some f,
             username := (setA st.online u uname).lookup f,
             timestamp := some now }) ∈ (ConnectFlow.connect st u uname now).2
        ↔ (f ∈ acceptedFriendIds st.friends u ∧
           ((setA st.online u uname).lookup f).isSome = true))) ∧
    ((ConnectFlow.connect st u uname now).1.notifications.filter
        (fun n => (n.userId == u) && !n.isRead)) = [] ∧
    (∀ p ∈ st.notifications.zip
        (ConnectFlow.connect st u uname now).1.notifications,
      p.2.id = p.1.id ∧ p.2.userId = p.1.userId ∧ p.2.kind = p.1.kind ∧
      p.2.fromUserId = p.1.fromUserId ∧ p.2.body = p.1.body ∧
      p.2.createdAt = p.1.createdAt ∧
      p.2.isRead = (p.1.isRead || (p.1.userId == u))) ∧
    (∀ p ∈ (ConnectFlow.connect st u uname now).2, ∀ i : Nat,
      p.2.notification_id = some i →
      ∃ n, n ∈ st.notifications ∧ n.id = i ∧ n.userId = u ∧
        n.isRead = false) ∧
    ((ConnectFlow.connect st u uname now).2.filter
        (fun p => p.2.notification_id != none)).length =
      min 10 (st.notifications.filter
        (fun n => (n.userId == u) && !n.isRead)).length := by
  have hsends : (ConnectFlow.connect st u uname now).2 =
      (u, { type := "connected",
            message := some "Conectado al servidor de chat",
            user_id := some u, username := some uname,
            timestamp := some now }) ::
        (ConnectFlow.sendOnlineFriendsList
            ⟨st.notifications, st.friends, setA st.online u uname⟩ u now ++
          (sendPendingNotifications st.notifications u).2) := rfl
  refine ⟨?_, ?_, ?_, ?_, ?_⟩
  · intro f
    rw [hsends, List.mem_cons, List.mem_append]
    constructor
    · rintro (heq | hsnap | hpn)
      · exfalso
        simp at heq
      · exact (ConnectFlow.snapshot_mem
          ⟨st.notifications, st.friends, setA st.online u uname⟩ u now f).mp
          hsnap
      · exfalso
        have hnone :=
          (sendPendingNotifications_sends_shape st.notifications u _ hpn).2.1
        simp at hnone
    · intro hr
      exact Or.inr (Or.inl ((ConnectFlow.snapshot_mem
        ⟨st.notifications, st.friends, setA st.online u uname⟩ u now f).mpr
        hr))
  · exact sendPendingNotifications_clears_unread st.notifications u
  · exact sendPendingNotifications_frame st.notifications u
  · intro p hp i hpi
    rw [hsends, List.mem_cons, List.mem_append] at hp
    rcases hp with heq | hsnap | hpn
    · rw [heq] at hpi
      simp at hpi
    · have hnone := (ConnectFlow.snapshot_sends_shape _ u now p hsnap).2.1
      rw [hnone] at hpi
      simp at hpi
    · rcases (sendPendingNotifications_sends_shape st.notifications u p
        hpn).2.2 with ⟨n, hn, hid, hu, hr⟩
      rw [hid] at hpi
      injection hpi with hni
      exact ⟨n, hn, hni, hu, hr⟩
  · rw [hsends]
    have h1 : ((ConnectFlow.sendOnlineFriendsList
        ⟨st.notifications, st.friends, setA st.online u uname⟩ u now).filter
          (fun p => p.2.notification_id != none)) = [] := by
      rw [List.filter_eq_nil_iff]
      intro p hp
      have hnone := (ConnectFlow.snapshot_sends_shape _ u now p hp).2.1
      rw [hnone]
      simp
    have h2 : ((sendPendingNotifications st.notifications u).2.filter
        (fun p => p.2.notification_id != none)) =
        (sendPendingNotifications st.notifications u).2 := by
      rw [List.filter_eq_self]
      intro p hp
      rcases (sendPendingNotifications_sends_shape st.notifications u p
        hp).2.2 with ⟨n, _, hid, _, _⟩
      rw [hid]
      simp
    have h3 : (sendPendingNotifications st.notifications u).2.length =
        min 10 (st.notifications.filter
          (fun n => (n.userId == u) && !n.isRead)).length := by
      simp [sendPendingNotifications]
    rw [List.filter_cons, List.filter_append, h1, h2]
    simp [h3]

end ChatOnly

namespace ChatOnly

/-- C5 amended witness: user 1 connects with one unread notification and an
online accepted friend 3; the friend_online snapshot entry for 3 is
delivered. -/
theorem ConnectFlow.connect_delivery_amended_witness :
    (1, { type := "friend_online", user_id := some 3,
          username := (setA ([(3, "bob")] : List (Nat × String)) 1 "a").lookup 3,
          timestamp := some 7 }) ∈
      (ConnectFlow.connect
        ⟨[⟨1, 1, "message", 2, some "m", false, 0⟩], [⟨1, 3, "accepted"⟩],
          [(3, "bob")]⟩ 1 "a" 7).2 :=
  ((ConnectFlow.connect_delivery_amended
      ⟨[⟨1, 1, "message", 2, some "m", false, 0⟩], [⟨1, 3, "accepted"⟩],
        [(3, "bob")]⟩ 1 "a" 7).1 3).mpr (by decide)

/-- C5 counterexample: with 11 unread notifications for user 1, connect
delivers only the 10 newest; the oldest (id 1) is marked read although no
delivered push carries its id — so "delivers every unread Notification" and
"no notification is marked read without having been delivered" are both
false. -/
theorem ConnectFlow.undelivered_notification_marked_read_cex :
    (((ConnectFlow.connect
        ⟨(List.range 11).map (fun i =>
            ⟨i + 1, 1, "message", 2, none, false, i⟩), [], []⟩
        1 "a" 7).2.filter
      (fun p => p.2.notification_id == some 1)) = []) ∧
    ((⟨1, 1, "message", 2, none, true, 0⟩ : Notif) ∈
      (ConnectFlow.connect
        ⟨(List.range 11).map (fun i =>
            ⟨i + 1, 1, "message", 2, none, false, i⟩), [], []⟩
        1 "a" 7).1.notifications) := by
  decide

/-! ## C9: outbound events and the timestamp field (chat-server.js) -/

theorem sendPendingNotifications_timestamps (notifs : List Notif) (u : Nat) :
    ∀ p ∈ (sendPendingNotifications notifs u).2,
      p.2.timestamp.isSome = true := by
  intro p hp
  simp only [sendPendingNotifications] at hp
  rw [List.mem_map] at hp
  rcases hp with ⟨n, hn, rfl⟩
  rfl

theorem CS.handlePrivateMessage_timestamps (st : CS.St) (userId : Nat)
    (username : String) (m : CS.InMsg) (now : Nat) :
    ∀ p ∈ (CS.handlePrivateMessage st userId username m now).2,
      p.2.timestamp.isSome = true := by
  intro p hp
  simp only [CS.handlePrivateMessage] at hp
  by_cases ho : CS.isOnline st m.to_user_id
  · rw [if_pos ho, List.mem_singleton] at hp
    rw [hp]
    cases hts : m.tsArg <;> rfl
  · rw [if_neg ho] at hp
    simp at hp

theorem CS.handleFriendRequest_timestamps (st : CS.St) (userId : Nat)
    (username : String) (m : CS.InMsg) (now : Nat) :
    ∀ p ∈ (CS.handleFriendRequest st userId username m now).2,
      p.2.timestamp.isSome = true := by
  intro p hp
  simp only [CS.handleFriendRequest] at hp
  by_cases ho : CS.isOnline st m.to_user_id
  · rw [if_pos ho, List.mem_singleton] at hp
    rw [hp]
    rfl
  · rw [if_neg ho] at hp
    simp at hp

theorem CS.handleFriendRequestResponse_timestamps (st : CS.St) (userId : Nat)
    (username : String) (m : CS.InMsg) (now : Nat) :
    ∀ p ∈ (CS.handleFriendRequestResponse st userId username m now).2,
      p.2.timestamp.isSome = true := by
  intro p hp
  simp only [CS.handleFriendRequestResponse] at hp
  by_cases ho : CS.isOnline st m.from_user_id
  · rw [if_pos ho, List.mem_singleton] at hp
    rw [hp]
    rfl
  · rw [if_neg ho] at hp
    simp at hp

theorem CS.handleTypingNotification_timestamps (st : CS.St) (userId : Nat)
    (username : String) (m : CS.InMsg) (now : Nat) :
    ∀ p ∈ (CS.handleTypingNotification st userId username m now).2,
      p.2.timestamp.isSome = true := by
  intro p hp
  simp only [CS.handleTypingNotification] at hp
  by_cases ho : CS.isOnline st m.to_user_id
  · rw [if_pos ho, List.mem_singleton] at hp
    rw [hp]
    rfl
  · rw [if_neg ho] at hp
    simp at hp

theorem CS.handleReadReceipt_timestamps (st : CS.St) (userId : Nat)
    (m : CS.InMsg) (now : Nat) :
    ∀ p ∈ (CS.handleReadReceipt st userId m now).2,
      p.2.timestamp.isSome = true := by
  intro p hp
  simp only [CS.handleReadReceipt] at hp
  by_cases ho : CS.isOnline st m.from_user_id
  · rw [if_pos ho, List.mem_singleton] at hp
    rw [hp]
    rfl
  · rw [if_neg ho] at hp
    simp at hp

theorem CS.handleFriendAdded_timestamps (st : CS.St) (userId : Nat)
    (m : CS.InMsg) (now : Nat) :
    ∀ p ∈ (CS.handleFriendAdded st userId m now).2,
      p.2.timestamp.isSome = true := by
  intro p hp
  simp only [CS.handleFriendAdded] at hp
  by_cases ho : CS.isOnline st userId
  · rw [if_pos ho, List.mem_singleton] at hp
    rw [hp]
    rfl
  · rw [if_neg ho] at hp
    simp at hp

/-- C9 counterexample: the pong reply of chat-server.js (line 230) carries
no timestamp, and neither does the connected handshake ack (lines 168-172),
so not every outbound event carries a timestamp. -/
theorem CS.outbound_event_missing_timestamp_cex :
    ((CS.handleMessage ⟨[], [], [1], 0, 0⟩ 1 "a" { type := "ping" } 7).2.all
      (fun p => p.2.timestamp.isSome)) = false ∧
    (CS.connectedAck 1 "a").timestamp = none := by
  decide

/-- C9 amended: every event the chat-server.js dispatcher emits carries a
timestamp except the bare pong reply, and every event emitted at connect
carries one except the connected handshake ack. -/
theorem CS.outbound_timestamp_amended
    (st : CS.St) (userId : Nat) (username : String) (m : CS.InMsg)
    (now : Nat) (u : Nat) (uname : String) :
    (∀ p ∈ (CS.handleMessage st userId username m now).2,
      p.2.type ≠ "pong" → p.2.timestamp.isSome = true) ∧
    (∀ p ∈ (CS.connect st u uname).2,
      p.2.type ≠ "connected" → p.2.timestamp.isSome = true) := by
  constructor
  · intro p hp hne
    unfold CS.handleMessage at hp
    split at hp
    · exact CS.handlePrivateMessage_timestamps st userId username m now p hp
    · exact CS.handleFriendRequest_timestamps st userId username m now p hp
    · exact CS.handleFriendRequestResponse_timestamps st userId username m
        now p hp
    · exact CS.handleTypingNotification_timestamps st userId username m now
        p hp
    · exact CS.handleReadReceipt_timestamps st userId m now p hp
    · rw [show ((st, [(userId, CS.pongEvent)]) : CS.St × List Send).2 =
          [(userId, CS.pongEvent)] from rfl, List.mem_singleton] at hp
      rw [hp] at hne
      exact absurd rfl hne
    · exact CS.handleFriendAdded_timestamps st userId m now p hp
    · rw [show ((st, ([] : List Send)) : CS.St × List Send).2 =
          ([] : List Send) from rfl] at hp
      simp at hp
  · intro p hp hne
    have hs : (CS.connect st u uname).2 =
        (u, CS.connectedAck u uname) ::
          (sendPendingNotifications st.notifications u).2 := rfl
    rw [hs, List.mem_cons] at hp
    rcases hp with rfl | hp
    · exact absurd rfl hne
    · exact sendPendingNotifications_timestamps st.notifications u p hp

/-- C9 amended witness: a private_message push emitted by the dispatcher
carries a timestamp. -/
theorem CS.outbound_timestamp_amended_witness :
    ((2, ({ type := "private_message", from_user_id := some 1,
            from_username := some "a", to_user_id := some 2,
            message := some "hi", message_id := some 0,
            timestamp := some 7 } : Event)) : Send).2.timestamp.isSome
      = true :=
  (CS.outbound_timestamp_amended ⟨[], [], [2], 0, 0⟩ 1 "a"
      { type := "private_message", to_user_id := 2, body := "hi" } 7 1 "a").1
    (2, { type := "private_message", from_user_id := some 1,
          from_username := some "a", to_user_id := some 2,
          message := some "hi", message_id := some 0,
          timestamp := some 7 }) (by decide) (by decide)

end ChatOnly
